import Mathlib

/-!
Verification of the Cookie Run: Kingdom team-optimizer core
(`team_optimizer.py`, `synergy_calculator.py`, `counter_team_generator.py`).

Conventions of the shallow embedding:
* Python `float` arithmetic is modelled exactly over `ℚ` (the scoring
  formulas only add, multiply, divide and compare small decimals).
* Optional Python attributes (`element`, `cookie_level`, `crowd_control`,
  `skill_type`, ...) become `Option` fields; Python truthiness of a string
  is "nonempty", of a number "nonzero", of a list "nonempty".
* Python exceptions become `Except String`; the message strings abbreviate
  the source messages.
* `random.sample` / `random.choice` / `random.random` are modelled by
  explicit oracle functions passed to the search strategies, indexed by an
  attempt counter; the unbounded `while` loop of the genetic algorithm is
  modelled with a fuel parameter, `none` standing for a run that was cut
  off before the loop finished.
* Only the attributes and record fields consumed by the scoring and search
  code under verification are embedded (e.g. the guild-battle flags and the
  flavour-text fields of cookies and treasures are omitted).
-/

/-- A cookie, after the normalisation done by `Cookie.__init__`
(`element` is `None` if missing or `'N/A'`, `crowd_control` and
`grants_immunity` are `None` if the string `'None'`). -/
structure Cookie where
  name : String
  rarity : String
  role : String
  position : String
  element : Option String := none
  cookie_level : Option ℚ := none
  skill_level : Option ℚ := none
  topping_quality : Option ℚ := none
  skill_type : Option String := none
  crowd_control : Option String := none
  grants_immunity : Option String := none
  provides_healing : Bool := false
  provides_shield : Bool := false
  anti_heal : Bool := false
  anti_tank : Bool := false
  dispel : Bool := false
  target_type : Option String := none
  deriving DecidableEq

/-- `RARITY_WEIGHTS` from `team_optimizer.py`. -/
def RARITY_WEIGHTS : List (String × ℚ) :=
  [("Beast", 7.0), ("Ancient (Ascended)", 6.5), ("Ancient", 6.0),
   ("Legendary", 5.0), ("Dragon", 5.0), ("Super Epic", 4.0), ("Epic", 3.0),
   ("Special", 2.0), ("Rare", 1.0), ("Common", 0.5)]

/-- `RARITY_WEIGHTS.get(rarity, 1.0)`. -/
def rarityWeight (r : String) : ℚ := (RARITY_WEIGHTS.lookup r).getD 1

/-- Python truthiness of an optional number (`None` and `0` are falsy). -/
def optTruthy : Option ℚ → Bool
  | none => false
  | some x => x ≠ 0

/-- Python truthiness combined with the `!= 'None'` re-check used for
`crowd_control` and `grants_immunity` (`x and x != 'None'`). -/
def flagActive : Option String → Bool
  | none => false
  | some s => s ≠ "" && s ≠ "None"

/-- The `if element and element != 'N/A'` test of the team-synergy code. -/
def elemActive : Option String → Bool
  | none => false
  | some s => s ≠ "" && s ≠ "N/A"

/-- `Cookie._calculate_advanced_score`:
`Rarity*40% + (Skill/60)*35%*7 + (Level/70)*15%*7 + (Topping/5)*10%*7`,
missing fields contributing zero to their term. -/
def Cookie.calculate_advanced_score (c : Cookie) : ℚ :=
  rarityWeight c.rarity * 0.40
  + (match c.skill_level with
     | some s => s / 60 * 0.35 * 7
     | none => 0)
  + (match c.cookie_level with
     | some l => l / 70 * 0.15 * 7
     | none => 0)
  + (match c.topping_quality with
     | some t => t / 5 * 0.10 * 7
     | none => 0)

/-- `Cookie.get_power_score`: advanced mode iff
`any([cookie_level, skill_level, topping_quality])` (Python truthiness),
otherwise the rarity weight with default 1.0. -/
def Cookie.get_power_score (c : Cookie) : ℚ :=
  if optTruthy c.cookie_level || optTruthy c.skill_level
      || optTruthy c.topping_quality then
    c.calculate_advanced_score
  else rarityWeight c.rarity

/-- The eight roles keyed by `ROLE_SYNERGY_MATRIX`. -/
inductive RoleT where
  | defense | charge | healing | support | magic | ranged | bomber | ambush
  deriving DecidableEq, Fintype

/-- Role-name recognition: exactly the keys of `ROLE_SYNERGY_MATRIX`.
Every row of the source dictionary contains all eight roles, so
`role1 in matrix and role2 in matrix[role1]` holds iff both names are
among the eight. -/
def roleOf : String → Option RoleT
  | "Defense" => some .defense
  | "Charge" => some .charge
  | "Healing" => some .healing
  | "Support" => some .support
  | "Magic" => some .magic
  | "Ranged" => some .ranged
  | "Bomber" => some .bomber
  | "Ambush" => some .ambush
  | _ => none

/-- The 64 entries of `ROLE_SYNERGY_MATRIX` (first index = row). -/
def matrixVal : RoleT → RoleT → ℚ
  | .defense, .healing => 1.0
  | .defense, .support => 0.9
  | .defense, .magic => 0.7
  | .defense, .ranged => 0.7
  | .defense, .bomber => 0.7
  | .defense, .ambush => 0.6
  | .defense, .charge => 0.5
  | .defense, .defense => 0.4
  | .charge, .healing => 1.0
  | .charge, .support => 0.9
  | .charge, .magic => 0.7
  | .charge, .ranged => 0.7
  | .charge, .bomber => 0.7
  | .charge, .ambush => 0.6
  | .charge, .defense => 0.5
  | .charge, .charge => 0.4
  | .healing, .defense => 1.0
  | .healing, .charge => 1.0
  | .healing, .magic => 0.9
  | .healing, .ranged => 0.9
  | .healing, .bomber => 0.9
  | .healing, .ambush => 0.9
  | .healing, .support => 0.8
  | .healing, .healing => 0.3
  | .support, .defense => 0.9
  | .support, .charge => 0.9
  | .support, .magic => 0.9
  | .support, .ranged => 0.9
  | .support, .bomber => 0.9
  | .support, .ambush => 0.8
  | .support, .healing => 0.8
  | .support, .support => 0.5
  | .magic, .healing => 0.9
  | .magic, .support => 0.9
  | .magic, .defense => 0.7
  | .magic, .charge => 0.7
  | .magic, .ranged => 0.7
  | .magic, .bomber => 0.7
  | .magic, .ambush => 0.7
  | .magic, .magic => 0.6
  | .ranged, .healing => 0.9
  | .ranged, .support => 0.9
  | .ranged, .defense => 0.7
  | .ranged, .charge => 0.7
  | .ranged, .magic => 0.7
  | .ranged, .bomber => 0.7
  | .ranged, .ambush => 0.7
  | .ranged, .ranged => 0.6
  | .bomber, .healing => 0.9
  | .bomber, .support => 0.9
  | .bomber, .defense => 0.7
  | .bomber, .charge => 0.7
  | .bomber, .magic => 0.7
  | .bomber, .ranged => 0.7
  | .bomber, .ambush => 0.7
  | .bomber, .bomber => 0.6
  | .ambush, .healing => 0.9
  | .ambush, .support => 0.8
  | .ambush, .defense => 0.6
  | .ambush, .charge => 0.6
  | .ambush, .magic => 0.7
  | .ambush, .ranged => 0.7
  | .ambush, .bomber => 0.7
  | .ambush, .ambush => 0.6

/-- `ROLE_SYNERGY_MATRIX[role1][role2]` when both lookups succeed. -/
def roleLookup (r1 r2 : String) : Option ℚ :=
  match roleOf r1, roleOf r2 with
  | some a, some b => some (matrixVal a b)
  | _, _ => none

/-- Role-synergy block of `calculate_cookie_synergy` (matrix value × 4,
nothing added when a role is unknown). -/
def roleSynergyPair (c1 c2 : Cookie) : ℚ :=
  match roleLookup c1.role c2.role with
  | some v => v * 4
  | none => 0

/-- Position block of `calculate_cookie_synergy`. -/
def positionSynergyPair (c1 c2 : Cookie) : ℚ :=
  if c1.position ≠ c2.position then 1.5 else 0.5

/-- Elemental block of `calculate_cookie_synergy` (lines 155-163).
Note that the source compares the (post-constructor) element attribute to
the string `'N/A'`, and Python `None != 'N/A'` is `True`; the outer guard
tests `rarity`, not `element`. -/
def elementSynergyPair (c1 c2 : Cookie) : ℚ :=
  if c1.rarity ≠ "N/A" ∧ c2.rarity ≠ "N/A" then
    if c1.element ≠ some ("N/A") ∧ c2.element ≠ some ("N/A")
        ∧ c1.element = c2.element then 2.0
    else if c1.element ≠ some ("N/A") ∧ c2.element ≠ some ("N/A") then 0.3
    else 0
  else 0

/-- CC + burst-damage block of `calculate_cookie_synergy`: an `if`/`elif`
pair, so cookie1's crowd control takes priority. -/
def ccBurstPair (c1 c2 : Cookie) : ℚ :=
  if flagActive c1.crowd_control then
    (if c2.skill_type = some ("Damage") then 1.5 else 0)
  else if flagActive c2.crowd_control then
    (if c1.skill_type = some ("Damage") then 1.5 else 0)
  else 0

/-- Healer + shield block of `calculate_cookie_synergy`. -/
def healShieldPair (c1 c2 : Cookie) : ℚ :=
  if c1.provides_healing && c2.provides_shield then 1.0
  else if c2.provides_healing && c1.provides_shield then 1.0
  else 0

/-- Immunity + dispel block of `calculate_cookie_synergy` (again an
`if`/`elif` pair). -/
def immunityDispelPair (c1 c2 : Cookie) : ℚ :=
  if flagActive c1.grants_immunity then (if c2.dispel then 1.0 else 0)
  else if flagActive c2.grants_immunity then (if c1.dispel then 1.0 else 0)
  else 0

/-- Double anti-tank block of `calculate_cookie_synergy`. -/
def antiTankPair (c1 c2 : Cookie) : ℚ :=
  if c1.anti_tank && c2.anti_tank then 1.0 else 0

/-- `SynergyCalculator.calculate_cookie_synergy`: sum of the blocks,
capped at 12. -/
def calculate_cookie_synergy (c1 c2 : Cookie) : ℚ :=
  min (roleSynergyPair c1 c2 + positionSynergyPair c1 c2
    + elementSynergyPair c1 c2 + ccBurstPair c1 c2 + healShieldPair c1 c2
    + immunityDispelPair c1 c2 + antiTankPair c1 c2) 12

/-- The matrix values collected by the `for i, for j in range(i+1, ..)`
double loop of `calculate_team_synergy` (pairs whose roles are unknown are
skipped). -/
def rolePairVals : List Cookie → List ℚ
  | [] => []
  | c :: rest =>
    rest.filterMap (fun d => roleLookup c.role d.role) ++ rolePairVals rest

/-- Role-synergy component of `calculate_team_synergy`: mean of the
pairwise matrix values × 30 (0 when no pair had known roles). -/
def role_synergy_of (cs : List Cookie) : ℚ :=
  let vals := rolePairVals cs
  if vals = [] then 0 else vals.sum / (vals.length : ℚ) * 30

/-- Position-synergy component: 20/12/5 by distinct-position count, plus 5
when the sorted position counts are exactly `[1, 2, 2]`. -/
def position_synergy_of (cs : List Cookie) : ℚ :=
  let positions := cs.map (·.position)
  let coverage := positions.dedup.length
  let base : ℚ := if coverage = 3 then 20 else if coverage = 2 then 12 else 5
  let counts := positions.dedup.map (fun p => positions.count p)
  if List.insertionSort (· ≤ ·) counts = [1, 2, 2] then base + 5 else base

/-- The elements of the cookies that pass the
`if element and element != 'N/A'` test. -/
def teamElements (cs : List Cookie) : List String :=
  cs.filterMap (fun c => if elemActive c.element then c.element else none)

/-- Element-synergy component: stepped by the largest same-element cluster
among cookies that have an element; 0 when no cookie has one. -/
def element_synergy_of (cs : List Cookie) : ℚ :=
  let elems := teamElements cs
  if elems.length = 0 then 0
  else
    let maxCount := (elems.dedup.map (fun e => elems.count e)).foldr max 0
    if 5 ≤ maxCount then 25
    else if maxCount = 4 then 20
    else if maxCount = 3 then 15
    else if maxCount = 2 then 8
    else 3

/-- The `high_tier_types` list of `calculate_team_synergy`. -/
def HIGH_TIER_TYPES : List String :=
  ["Beast", "Ancient", "Ancient (Ascended)", "Legendary", "Dragon"]

/-- Type-synergy component: the source iterates the rarity counter and
breaks at the first high-tier rarity with count ≥ 3 (at most one rarity of
a 5-cookie team can have count ≥ 3, so the iteration order is
irrelevant). -/
def type_synergy_of (cs : List Cookie) : ℚ :=
  let rarities := cs.map (·.rarity)
  match rarities.dedup.find?
      (fun r => HIGH_TIER_TYPES.contains r && decide (3 ≤ rarities.count r)) with
  | some r =>
    if rarities.count r = 5 then 15
    else if rarities.count r = 4 then 12
    else if rarities.count r = 3 then 8
    else 0
  | none => 0

/-- The damage-role set used throughout the scoring code. -/
def DAMAGE_ROLES : List String := ["Magic", "Ranged", "Bomber", "Ambush"]

/-- Coverage-synergy component (tank / healer / DPS present, ≥ 4 distinct
roles). -/
def coverage_synergy_of (cs : List Cookie) : ℚ :=
  let roles := cs.map (·.role)
  (if roles.any (fun r => r == "Defense" || r == "Charge") then 3 else 0)
  + (if roles.any (fun r => r == "Healing" || r == "Support") then 3 else 0)
  + (if roles.any (fun r => DAMAGE_ROLES.contains r) then 2 else 0)
  + (if 4 ≤ roles.dedup.length then 2 else 0)

/-- Ability-synergy component (2.5-point combos plus the anti-tank term),
capped at 10. -/
def ability_synergy_of (cs : List Cookie) : ℚ :=
  let has_cc := cs.any (fun c => flagActive c.crowd_control)
  let has_burst := cs.any (fun c => c.skill_type == some ("Damage"))
  let has_healing := cs.any (·.provides_healing)
  let has_shield := cs.any (·.provides_shield)
  let has_immunity := cs.any (fun c => flagActive c.grants_immunity)
  let has_dispel := cs.any (·.dispel)
  let numAntiTank := cs.countP (·.anti_tank)
  min ((if has_cc && has_burst then 2.5 else 0)
    + (if has_healing && has_shield then 2.5 else 0)
    + (if has_immunity && has_dispel then 2.5 else 0)
    + (if 2 ≤ numAntiTank then min ((numAntiTank : ℚ) * 0.8) 2.5 else 0)) 10

/-- The dictionary returned by `SynergyCalculator.calculate_team_synergy`. -/
structure SynergyBreakdown where
  role_synergy : ℚ
  position_synergy : ℚ
  element_synergy : ℚ
  type_synergy : ℚ
  coverage_synergy : ℚ
  ability_synergy : ℚ
  total_score : ℚ
  deriving DecidableEq

/-- The all-zero breakdown returned for teams without exactly 5 cookies. -/
def zeroBreakdown : SynergyBreakdown := ⟨0, 0, 0, 0, 0, 0, 0⟩

/-- `SynergyCalculator.calculate_team_synergy` (it only reads
`team.cookies`, so it is embedded over the cookie list). -/
def calculate_team_synergy (cs : List Cookie) : SynergyBreakdown :=
  if cs.length ≠ 5 then zeroBreakdown
  else
    let r := role_synergy_of cs
    let p := position_synergy_of cs
    let e := element_synergy_of cs
    let t := type_synergy_of cs
    let cov := coverage_synergy_of cs
    let ab := ability_synergy_of cs
    ⟨r, p, e, t, cov, ab, r + p + e + t + cov + ab⟩

/-- `Team._calculate_synergy_bonus`: the synergy total scaled by
`/ 100.0 * 20.0` (the import of the synergy calculator always succeeds in
this repository, so the `ImportError` fallback is dead code). -/
def synergy_bonus_of (cs : List Cookie) : ℚ :=
  (calculate_team_synergy cs).total_score / 100 * 20

/-- `Team._calculate_role_diversity_score`. -/
def role_diversity_score_of (cs : List Cookie) : ℚ :=
  let u := (cs.map (·.role)).dedup.length
  if u = 5 then 30 else if u = 4 then 24 else if u = 3 then 15
  else if u = 2 then 8 else 0

/-- `Team._calculate_position_coverage_score`. -/
def position_coverage_score_of (cs : List Cookie) : ℚ :=
  let u := (cs.map (·.position)).dedup.length
  if u = 3 then 25 else if u = 2 then 15 else if u = 1 then 5 else 0

/-- `Team._calculate_power_score`: sum of the members' power scores. -/
def power_score_of (cs : List Cookie) : ℚ :=
  (cs.map Cookie.get_power_score).sum

/-- `Team.has_tank`. -/
def has_tank_of (cs : List Cookie) : Bool :=
  cs.any (fun c => c.position == "Front"
    && (c.role == "Defense" || c.role == "Charge"))

/-- `Team.has_healer`. -/
def has_healer_of (cs : List Cookie) : Bool :=
  cs.any (fun c => c.role == "Healing" || c.role == "Support")

/-- `Team._calculate_bonus_modifiers`. -/
def bonus_modifiers_of (cs : List Cookie) : ℚ :=
  (if has_tank_of cs then 3 else 0)
  + (if has_healer_of cs then 3 else 0)
  + (if cs.any (fun c => DAMAGE_ROLES.contains c.role) then 2 else 0)

/-- A treasure (fields consumed by the scoring code). -/
structure Treasure where
  name : String
  tier_ranking : String
  atk_boost_max : ℚ := 0
  crit_boost_max : ℚ := 0
  cooldown_reduction_max : ℚ := 0
  dmg_resist_max : ℚ := 0
  hp_shield_max : ℚ := 0
  heal_max : ℚ := 0
  revive : Bool := false
  debuff_cleanse : Bool := false
  enemy_debuff : Bool := false
  summon_boost : Bool := false
  recommended_archetypes : List String := []
  deriving DecidableEq

/-- `Treasure.get_power_score`: tier base score (default 5.0), +1 for
`Universal`, capped at 10. -/
def Treasure.get_power_score (t : Treasure) : ℚ :=
  let base : ℚ :=
    if t.tier_ranking = "S+" then 10 else if t.tier_ranking = "S" then 8.5
    else if t.tier_ranking = "A" then 7 else if t.tier_ranking = "B" then 5.5
    else if t.tier_ranking = "C" then 4 else 5
  let base := if t.recommended_archetypes.contains "Universal" then base + 1
    else base
  min base 10

/-- `Team._calculate_treasure_bonus` (reads the cookie list only through
the has-summoner test). -/
def treasure_bonus_of (cs : List Cookie) (ts : List Treasure) : ℚ :=
  if ts = [] then 0
  else
    let avgPower := (ts.map Treasure.get_power_score).sum / (ts.length : ℚ)
    let b0 := min avgPower 10
    let totalAtk := (ts.map (·.atk_boost_max)).sum
    let totalCrit := (ts.map (·.crit_boost_max)).sum
    let totalCdr := (ts.map (·.cooldown_reduction_max)).sum
    let b1 := if 0 < totalAtk then min (totalAtk / 100) 1 else 0
    let b2 := if 0 < totalCrit then min (totalCrit / 30) 1 else 0
    let b3 := if 0 < totalCdr then min (totalCdr / 40) 1 else 0
    let totalShields := (ts.map (·.hp_shield_max)).sum
    let totalHeals := (ts.map (·.heal_max)).sum
    let special :=
      (if ts.any (·.revive) then 0.5 else 0)
      + (if ts.any (·.debuff_cleanse) then 0.3 else 0)
      + (if ts.any (·.enemy_debuff) then 0.4 else 0)
      + (if 0 < totalShields ∨ 0 < totalHeals then 0.5 else 0)
      + (if ts.any (·.summon_boost) then
          (if cs.any (fun c => c.skill_type == some ("Summon")) then 0.8
           else -0.3)
         else 0)
    min (b0 + b1 + b2 + b3 + min special 2) 15

/-- `Team.calculate_score`: the composition score as a function of the
cookie list, the treasure list and the `include_synergy` flag. -/
def composition_score_of (cs : List Cookie) (ts : List Treasure)
    (includeSynergy : Bool) : ℚ :=
  role_diversity_score_of cs + position_coverage_score_of cs
  + power_score_of cs + bonus_modifiers_of cs + treasure_bonus_of cs ts
  + (if includeSynergy then synergy_bonus_of cs else 0)

/-- A team value (constructor arguments of `Team.__init__`); the derived
quantities are functions of these fields. -/
structure Team where
  cookies : List Cookie
  treasures : List Treasure := []
  include_synergy : Bool := true
  strict_validation : Bool := true
  deriving DecidableEq

/-- `Team.composition_score`, computed once at construction. -/
def Team.composition_score (t : Team) : ℚ :=
  composition_score_of t.cookies t.treasures t.include_synergy

/-- `Team.synergy_score`: set by `_calculate_synergy_bonus` when the
synergy bonus is enabled, otherwise left at its initial `0.0`. -/
def Team.synergy_score (t : Team) : ℚ :=
  if t.include_synergy then (calculate_team_synergy t.cookies).total_score
  else 0

/-- `Team.validate`: the four checks in source order (duplicate detection
uses `set(...)`, and cookies/treasures hash and compare by name). -/
def Team.validate (t : Team) : Except String Unit :=
  if t.strict_validation ∧ t.cookies.length ≠ 5 then
    .error ("Team must have exactly 5 cookies")
  else if ¬t.strict_validation
      ∧ (t.cookies.length < 1 ∨ 5 < t.cookies.length) then
    .error ("Team must have 1-5 cookies")
  else if (t.cookies.map Cookie.name).dedup.length ≠ t.cookies.length then
    .error ("Team cannot have duplicate cookies")
  else if 3 < t.treasures.length then
    .error ("Team can have maximum 3 treasures")
  else if (t.treasures.map Treasure.name).dedup.length
      ≠ t.treasures.length then
    .error ("Team cannot have duplicate treasures")
  else .ok ()

/-- `Team.__init__`: validation runs first; a team value (with its derived
scores) exists only when validation passes. -/
def mkTeam (cookies : List Cookie) (treasures : List Treasure)
    (includeSynergy strict : Bool) : Except String Team :=
  let t : Team := ⟨cookies, treasures, includeSynergy, strict⟩
  match t.validate with
  | .ok _ => .ok t
  | .error e => .error e

/-- `TeamOptimizer.generate_random_teams`. `sampler i avail k` stands for
the `random.sample(available, k)` call of iteration `i`; the configuration
checks run before any sampling. -/
def generate_random_teams (pool : List Cookie) (n : ℕ)
    (required_cookies : Option (List String))
    (sampler : ℕ → List Cookie → ℕ → List Cookie) :
    Except String (List Team) :=
  let reqNames := required_cookies.getD []
  let required :=
    if reqNames ≠ [] then pool.filter (fun c => reqNames.contains c.name)
    else []
  if reqNames ≠ [] ∧ required.length ≠ reqNames.length then
    .error ("Required cookies not found")
  else
    let available := pool.filter (fun c => ¬ reqNames.contains c.name)
    let slots : ℤ := 5 - required.length
    if slots < 0 then .error ("Too many required cookies")
    else if (available.length : ℤ) < slots then
      .error ("Not enough cookies to fill team")
    else
      .ok ((List.range n).filterMap (fun i =>
        let selected := required
          ++ (if 0 < slots then sampler i available slots.toNat else [])
        (mkTeam selected [] true true).toOption))

/-- Sort key of the greedy strategy: power score, descending (Python
`sorted(..., reverse=True)` is stable). -/
def powerGE (a b : Cookie) : Prop :=
  Cookie.get_power_score b ≤ Cookie.get_power_score a

instance : DecidableRel powerGE :=
  fun _ _ => inferInstanceAs (Decidable (_ ≤ _))

/-- One iteration of the `_generate_greedy_teams` loop. `choose1` models
`random.choice` (`none` only on an empty pool, where Python raises), and
`sample1` models `random.sample`. -/
def greedyIter (required availableSorted : List Cookie) (slots : ℤ)
    (choose1 : List Cookie → Option Cookie)
    (sample1 : List Cookie → ℕ → List Cookie) :
    Except String (Option Team) :=
  if 0 < slots then
    let pickPool :=
      if 10 ≤ availableSorted.length then availableSorted.take 10
      else availableSorted.take (max 1 availableSorted.length)
    match choose1 pickPool with
    | none => .error ("IndexError: cannot choose from an empty sequence")
    | some c =>
      let teamCookies := required ++ [c]
      let remaining :=
        (availableSorted.filter
          (fun d => ¬ (teamCookies.map Cookie.name).contains d.name)).take
          (availableSorted.length / 2)
      let needed := min (slots - 1) (remaining.length : ℤ)
      let teamCookies2 := teamCookies
        ++ (if 0 < needed then sample1 remaining needed.toNat else [])
      if teamCookies2.length = 5 then
        pure ((mkTeam teamCookies2 [] true true).toOption)
      else pure none
  else
    if required.length = 5 then pure ((mkTeam required [] true true).toOption)
    else pure none

/-- `TeamOptimizer._generate_greedy_teams`: note that, unlike the random
strategy, it performs no check that the required names were found or that
there are at most 5 of them. -/
def generate_greedy_teams (pool : List Cookie) (n : ℕ)
    (required_cookies : Option (List String))
    (choose : ℕ → List Cookie → Option Cookie)
    (sampler : ℕ → List Cookie → ℕ → List Cookie) :
    Except String (List Team) := do
  let reqNames := required_cookies.getD []
  let required :=
    if reqNames ≠ [] then pool.filter (fun c => reqNames.contains c.name)
    else []
  let sortedCookies := List.insertionSort powerGE pool
  let availableSorted :=
    sortedCookies.filter (fun c => ¬ (required.map Cookie.name).contains c.name)
  let slots : ℤ := 5 - required.length
  let opts ← (List.range n).mapM
    (fun i => greedyIter required availableSorted slots (choose i) (sampler i))
  pure (opts.filterMap id)

/-- `TeamOptimizer._generate_exhaustive_teams`. The interactive
confirmation prompt is modelled by the `confirm` flag; a declined prompt
returns the empty list. Like greedy, it performs no required-name check,
but `math.comb` raises `ValueError` on a negative slot count. -/
def generate_exhaustive_teams (pool : List Cookie)
    (required_cookies : Option (List String)) (confirm : Bool) :
    Except String (List Team) :=
  let reqNames := required_cookies.getD []
  let required :=
    if reqNames ≠ [] then pool.filter (fun c => reqNames.contains c.name)
    else []
  let available :=
    pool.filter (fun c => ¬ (required.map Cookie.name).contains c.name)
  let slots : ℤ := 5 - required.length
  if slots < 0 then .error ("ValueError: k must be a non-negative integer")
  else
    let total := Nat.choose available.length slots.toNat
    if 1000000 < total ∧ ¬ confirm then .ok []
    else
      .ok ((available.sublistsLen slots.toNat).filterMap
        (fun combo => (mkTeam (required ++ combo) [] true true).toOption))

/-- Oracles for the random draws of one genetic generation, indexed by the
breeding-attempt counter. -/
structure GenRand where
  pickParents : ℕ → List Team → Team × Team
  crossSample : ℕ → List Cookie → ℕ → List Cookie
  doMutate : ℕ → Bool
  mutPick : ℕ → List Cookie → Cookie
  mutReplace : ℕ → List Cookie → Cookie

/-- Python `set(...)` of cookies (which hash and compare by name). -/
def dedupByName : List Cookie → List Cookie
  | [] => []
  | c :: rest =>
    if (rest.map Cookie.name).contains c.name then dedupByName rest
    else c :: dedupByName rest

/-- `TeamOptimizer._crossover_teams`. -/
def crossover_teams (allCookies : List Cookie) (reqNames : List String)
    (team1 team2 : Team) (sample1 : List Cookie → ℕ → List Cookie) :
    Except String (List Cookie) :=
  let required :=
    if reqNames ≠ [] then
      team1.cookies.filter (fun c => reqNames.contains c.name)
    else []
  let allParent := dedupByName (team1.cookies ++ team2.cookies)
  let available :=
    allParent.filter (fun c => ¬ (required.map Cookie.name).contains c.name)
  let slots : ℤ := 5 - required.length
  if slots ≤ (available.length : ℤ) then
    pure (required ++ sample1 available slots.toNat)
  else
    let remainingSlots := slots - available.length
    let extra := allCookies.filter (fun c =>
      ¬ (available.map Cookie.name).contains c.name
      ∧ ¬ (required.map Cookie.name).contains c.name)
    if (extra.length : ℤ) < remainingSlots then
      .error ("ValueError: sample larger than population")
    else pure (required ++ available ++ sample1 extra remainingSlots.toNat)

/-- `TeamOptimizer._mutate_team`. -/
def mutate_team (allCookies : List Cookie) (reqNames : List String)
    (cookies : List Cookie) (pickC replC : List Cookie → Cookie) :
    List Cookie :=
  let mutable :=
    cookies.filter (fun c => reqNames = [] ∨ ¬ reqNames.contains c.name)
  if mutable = [] then cookies
  else
    let toReplace := pickC mutable
    let available :=
      allCookies.filter (fun c => ¬ (cookies.map Cookie.name).contains c.name)
    if available = [] then cookies
    else
      let repl := replC available
      cookies.map (fun c => if c.name = toReplace.name then repl else c)

/-- The `while len(next_generation) < population_size` breeding loop:
`fuel` bounds the number of loop iterations, `none` standing for a run
that did not finish within the fuel. Invalid children are discarded and
do not count toward the refill. -/
def breedLoop (allCookies : List Cookie) (reqNames : List String)
    (rng : GenRand) (ps : ℕ) (elites : List Team) :
    ℕ → ℕ → List Team → Except String (Option (List Team))
  | 0, _, acc => if ps ≤ acc.length then pure (some acc) else pure none
  | fuel + 1, attempt, acc =>
    if ps ≤ acc.length then pure (some acc)
    else if elites.length < 2 then
      .error ("ValueError: sample larger than population")
    else
      let pp := rng.pickParents attempt elites
      match crossover_teams allCookies reqNames pp.1 pp.2
          (rng.crossSample attempt) with
      | .error e => .error e
      | .ok child =>
        let child2 :=
          if rng.doMutate attempt then
            mutate_team allCookies reqNames child (rng.mutPick attempt)
              (rng.mutReplace attempt)
          else child
        match mkTeam child2 [] true true with
        | .ok t =>
          breedLoop allCookies reqNames rng ps elites fuel (attempt + 1)
            (acc ++ [t])
        | .error _ =>
          breedLoop allCookies reqNames rng ps elites fuel (attempt + 1) acc

/-- Sort key of the genetic strategy: composition score, descending. -/
def scoreGE (t1 t2 : Team) : Prop :=
  Team.composition_score t2 ≤ Team.composition_score t1

instance : DecidableRel scoreGE :=
  fun _ _ => inferInstanceAs (Decidable (_ ≤ _))

instance : IsTotal Team scoreGE :=
  ⟨fun a b => le_total (Team.composition_score b) (Team.composition_score a)⟩

instance : IsTrans Team scoreGE :=
  ⟨fun _ _ _ h1 h2 => le_trans h2 h1⟩

/-- One generation of `_generate_genetic_teams`: sort by fitness, retain
the top `max 2 (population_size / 5)` as elites, breed until the
population is refilled. -/
def genetic_step (allCookies : List Cookie) (reqNames : List String)
    (rng : GenRand) (ps fuel : ℕ) (population : List Team) :
    Except String (Option (List Team)) :=
  let sortedPop := List.insertionSort scoreGE population
  let eliteCount := max 2 (ps / 5)
  let elites := sortedPop.take eliteCount
  breedLoop allCookies reqNames rng ps elites fuel 0 elites

/-- The `for generation in range(generations)` loop. -/
def genetic_loop (allCookies : List Cookie) (reqNames : List String)
    (rngs : ℕ → GenRand) (ps fuel : ℕ) :
    ℕ → List Team → Except String (Option (List Team))
  | 0, pop => pure (some pop)
  | g + 1, pop =>
    match genetic_step allCookies reqNames (rngs g) ps fuel pop with
    | .error e => .error e
    | .ok none => pure none
    | .ok (some pop2) => genetic_loop allCookies reqNames rngs ps fuel g pop2

/-- `TeamOptimizer._generate_genetic_teams`: the population is initialised
by `generate_random_teams` (whose required-member checks therefore run
first), then evolved generation by generation. -/
def generate_genetic_teams (pool : List Cookie) (generations ps : ℕ)
    (required_cookies : Option (List String))
    (initSampler : ℕ → List Cookie → ℕ → List Cookie) (rngs : ℕ → GenRand)
    (fuel : ℕ) : Except String (Option (List Team)) :=
  match generate_random_teams pool ps required_cookies initSampler with
  | .error e => .error e
  | .ok population =>
    genetic_loop pool (required_cookies.getD []) rngs ps fuel generations
      population

/-- The fields of `CounterTeamGenerator.analyze_enemy_team` consumed by
`_calculate_counter_score`. -/
structure EnemyAnalysis where
  healers : ℕ
  tanks : ℕ
  rear_position : ℕ
  crowd_control : ℕ
  immunity : Bool
  deriving DecidableEq

/-- `CounterTeamGenerator.analyze_enemy_team` (restricted to the fields
above; each is a per-cookie count or presence flag). -/
def analyze_enemy_team (enemy : Team) : EnemyAnalysis where
  healers := enemy.cookies.countP
    (fun c => c.role == "Healing" || c.role == "Support" || c.provides_healing)
  tanks := enemy.cookies.countP
    (fun c => c.role == "Defense" || c.role == "Charge")
  rear_position := enemy.cookies.countP (fun c => c.position == "Rear")
  crowd_control := enemy.cookies.countP (fun c => flagActive c.crowd_control)
  immunity := enemy.cookies.any (fun c => flagActive c.grants_immunity)

/-- The only strategy field read by `_calculate_counter_score`. -/
structure CounterStrategy where
  recommended_cookies : List String

/-- `CounterTeamGenerator._calculate_counter_score`. -/
def calculate_counter_score (counterTeam enemyTeam : Team)
    (strategy : CounterStrategy) : ℚ :=
  let recommendedCount := counterTeam.cookies.countP
    (fun c => strategy.recommended_cookies.contains c.name)
  let a := analyze_enemy_team enemyTeam
  let s1 : ℚ := (recommendedCount : ℚ) / 5 * 40
  let s2 := s1 + (if 2 ≤ a.healers
    ∧ counterTeam.cookies.any (·.anti_heal) then 10 else 0)
  let s3 := s2 + (if 3 ≤ a.rear_position
    ∧ counterTeam.cookies.any
        (fun c => c.role == "Ambush" || c.target_type == some ("Backline"))
    then 10 else 0)
  let s4 := s3 + (if 2 ≤ a.tanks
    ∧ counterTeam.cookies.any (·.anti_tank) then 10 else 0)
  let s5 := s4 + (if ¬ a.immunity
    ∧ counterTeam.cookies.any (fun c => flagActive c.crowd_control)
    then 5 else 0)
  let s6 := s5 + (if 2 ≤ a.crowd_control
    ∧ counterTeam.cookies.any (fun c => flagActive c.grants_immunity)
    then 5 else 0)
  let roles := counterTeam.cookies.map (·.role)
  let s7 := s6 + (if roles.any (fun r => r == "Defense" || r == "Charge")
    then 5 else 0)
  let s8 := s7 + (if roles.any (fun r => r == "Healing" || r == "Support")
    then 5 else 0)
  let s9 := s8 + (if roles.any (fun r => DAMAGE_ROLES.contains r)
    then 5 else 0)
  let s10 := s9 + counterTeam.synergy_score / 100 * 15
  min s10 100

/-- Concrete cookie: Beast Defense front-liner (test fixture). -/
def ckHolly : Cookie :=
  { name := "Hollyberry Cookie", rarity := "Beast", role := "Defense",
    position := "Front", element := some ("Water"), anti_tank := true }

/-- Concrete cookie: Beast Charge front-liner with a shield. -/
def ckWild : Cookie :=
  { name := "Wildberry Cookie", rarity := "Beast", role := "Charge",
    position := "Front", element := some ("Water"), provides_shield := true,
    anti_tank := true }

/-- Concrete cookie: Beast healer with dispel. -/
def ckVanilla : Cookie :=
  { name := "Pure Vanilla Cookie", rarity := "Beast", role := "Healing",
    position := "Middle", element := some ("Water"),
    provides_healing := true, dispel := true }

/-- Concrete cookie: Beast support granting immunity. -/
def ckFerret : Cookie :=
  { name := "Cream Ferret Cookie", rarity := "Beast", role := "Support",
    position := "Middle", element := some ("Water"),
    grants_immunity := some ("All_Debuffs") }

/-- Concrete cookie: Beast mage with crowd control and burst damage. -/
def ckSea : Cookie :=
  { name := "Sea Fairy Cookie", rarity := "Beast", role := "Magic",
    position := "Rear", element := some ("Water"),
    skill_type := some ("Damage"), crowd_control := some ("Stun"),
    anti_tank := true }

/-- A maximally synergistic 5-cookie team (synergy total 109.8). -/
def comboCookies : List Cookie := [ckHolly, ckWild, ckVanilla, ckFerret, ckSea]

/-- The same five cookies in reverse construction order. -/
def comboCookiesRev : List Cookie := [ckSea, ckFerret, ckVanilla, ckWild, ckHolly]

/-- A Beast cookie with no progression stats (basic mode). -/
def beastBasic : Cookie :=
  { name := "Shadow Milk Cookie", rarity := "Beast", role := "Magic",
    position := "Middle" }

/-- The same Beast cookie at level 70 / skill 60 / topping 5.0. -/
def beastAdvanced : Cookie :=
  { name := "Shadow Milk Cookie", rarity := "Beast", role := "Magic",
    position := "Middle", cookie_level := some 70, skill_level := some 60,
    topping_quality := some 5 }

/-- The same Beast cookie with all three stats present but zero. -/
def beastZero : Cookie :=
  { name := "Shadow Milk Cookie", rarity := "Beast", role := "Magic",
    position := "Middle", cookie_level := some 0, skill_level := some 0,
    topping_quality := some 0 }

/-- An element-less cookie (constructor stores `element = None`). -/
def plainA : Cookie :=
  { name := "GingerBrave", rarity := "Common", role := "Charge",
    position := "Front" }

/-- A second element-less cookie. -/
def plainB : Cookie :=
  { name := "Strawberry Cookie", rarity := "Common", role := "Defense",
    position := "Front" }

/-- A cookie that does have an element. -/
def elemC : Cookie :=
  { name := "Sparkling Cookie", rarity := "Epic", role := "Healing",
    position := "Middle", element := some ("Light") }

/-- A crowd-controller whose skill type is Damage. -/
def ccA : Cookie :=
  { name := "Frost Queen Cookie", rarity := "Legendary", role := "Magic",
    position := "Middle", skill_type := some ("Damage"),
    crowd_control := some ("Freeze") }

/-- A crowd-controller whose skill type is not Damage. -/
def ccB : Cookie :=
  { name := "Silent Salt Cookie", rarity := "Beast", role := "Charge",
    position := "Front", skill_type := some ("Buff"),
    crowd_control := some ("Silence") }

/-- A minimal pool cookie for strategy fixtures. -/
def mkPlain (nm : String) : Cookie :=
  { name := nm, rarity := "Common", role := "Magic", position := "Middle" }

/-- A 10-cookie pool for the greedy fixture. -/
def pool10 : List Cookie :=
  [mkPlain ("P01"), mkPlain ("P02"), mkPlain ("P03"), mkPlain ("P04"),
   mkPlain ("P05"), mkPlain ("P06"), mkPlain ("P07"), mkPlain ("P08"),
   mkPlain ("P09"), mkPlain ("P10")]

/-- A 6-cookie pool for the exhaustive fixture. -/
def pool6 : List Cookie := pool10.take 6

/-- Deterministic `random.sample` stand-in: take the first k. -/
def takeSampler : ℕ → List Cookie → ℕ → List Cookie := fun _ l k => l.take k

/-- Deterministic `random.choice` stand-in: take the head. -/
def chooseHead : ℕ → List Cookie → Option Cookie := fun _ l => l.head?

/-- A relaxed single-cookie team used by the genetic fixture. -/
def soloTeam : Team :=
  { cookies := [mkPlain ("Solo")], include_synergy := false,
    strict_validation := false }

/-- Trivial random oracles for the genetic fixture. -/
def rng0 : GenRand :=
  { pickParents := fun _ _ => (soloTeam, soloTeam),
    crossSample := fun _ l _ => l,
    doMutate := fun _ => false,
    mutPick := fun _ l => l.headD (mkPlain ("X")),
    mutReplace := fun _ l => l.headD (mkPlain ("X")) }

theorem matrixVal_symm : ∀ a b : RoleT, matrixVal a b = matrixVal b a := by
  with_unfolding_all decide

theorem matrixVal_nonneg : ∀ a b : RoleT, 0 ≤ matrixVal a b := by
  with_unfolding_all decide

theorem matrixVal_le_one : ∀ a b : RoleT, matrixVal a b ≤ 1 := by
  with_unfolding_all decide

theorem roleLookup_symm (r1 r2 : String) :
    roleLookup r1 r2 = roleLookup r2 r1 := by
  unfold roleLookup
  cases roleOf r1 <;> cases roleOf r2 <;>
    first
    | rfl
    | exact congrArg some (matrixVal_symm _ _)

theorem roleLookup_bounds {r1 r2 : String} {v : ℚ}
    (h : roleLookup r1 r2 = some v) : 0 ≤ v ∧ v ≤ 1 := by
  unfold roleLookup at h
  cases h1 : roleOf r1 <;> cases h2 : roleOf r2 <;> rw [h1, h2] at h <;>
    simp at h
  subst h
  exact ⟨matrixVal_nonneg _ _, matrixVal_le_one _ _⟩

/-- C9: in basic mode (no progression stat set) the power score is exactly
the rarity-table weight; in advanced mode a Beast cookie at level 70,
skill 60, topping 5.0 scores exactly
`7*0.40 + (60/60)*0.35*7 + (70/70)*0.15*7 + (5/5)*0.10*7 = 7`. -/
theorem C9_power_score_modes :
    (∀ c : Cookie, c.cookie_level = none → c.skill_level = none →
      c.topping_quality = none → c.get_power_score = rarityWeight c.rarity)
    ∧ (∀ c : Cookie, c.rarity = "Beast" → c.cookie_level = some 70 →
      c.skill_level = some 60 → c.topping_quality = some 5 →
      c.get_power_score = 7) := by
  constructor
  · intro c h1 h2 h3
    simp [Cookie.get_power_score, h1, h2, h3, optTruthy]
  · intro c hr h1 h2 h3
    have hw : rarityWeight c.rarity = 7 := by
      rw [hr]; with_unfolding_all rfl
    simp only [Cookie.get_power_score, Cookie.calculate_advanced_score,
      h1, h2, h3, optTruthy, hw]
    norm_num

/-- C9 witness: the two modes evaluated on concrete Beast cookies. -/
theorem C9_power_score_modes_witness :
    beastBasic.get_power_score = rarityWeight beastBasic.rarity
    ∧ beastAdvanced.get_power_score = 7 :=
  ⟨C9_power_score_modes.1 beastBasic rfl rfl rfl,
   C9_power_score_modes.2 beastAdvanced rfl rfl rfl rfl⟩

/-- C10: a cookie whose three progression stats are present but all zero
is scored in basic mode (Python `any([...])` tests truthiness, and `0` is
falsy), not with the advanced blend, which would give only 40% of the
rarity weight. -/
theorem C10_zero_stats_basic_mode (c : Cookie) (h1 : c.cookie_level = some 0)
    (h2 : c.skill_level = some 0) (h3 : c.topping_quality = some 0) :
    c.get_power_score = rarityWeight c.rarity
    ∧ c.calculate_advanced_score = rarityWeight c.rarity * 0.40 := by
  constructor
  · simp [Cookie.get_power_score, h1, h2, h3, optTruthy]
  · simp [Cookie.calculate_advanced_score, h1, h2, h3]

/-- C10 witness: the all-zero Beast cookie scores 7.0, not 2.8. -/
theorem C10_zero_stats_basic_mode_witness :
    beastZero.get_power_score = rarityWeight beastZero.rarity
    ∧ beastZero.calculate_advanced_score = rarityWeight beastZero.rarity * 0.40 :=
  C10_zero_stats_basic_mode beastZero rfl rfl rfl

/-- C3 (code evaluated at the failing input): two cookies that both lack
an element receive the +2.0 "same element" bonus (Python `None != 'N/A'`
is `True` and `None == None`), and an element-less cookie paired with an
element-bearing one receives +0.3 — the claim says both should be 0. -/
theorem C3_elemental_contribution_failing_input :
    plainA.element = none ∧ plainB.element = none
    ∧ elementSynergyPair plainA plainB = 2.0
    ∧ elementSynergyPair plainA elemC = 0.3 := by
  refine ⟨rfl, rfl, ?_, ?_⟩ <;> with_unfolding_all decide

/-- C4 counterexample: cookie1 has crowd control and skill type Damage,
cookie2 has crowd control and a non-Damage skill; one party (cookie2) has
non-none CC and the other (cookie1) has skill type Damage, yet the
`if`/`elif` chain awards no +1.5 because cookie1's own CC captures the
branch and cookie2's skill type is not Damage. -/
theorem C4_counterexample :
    flagActive ccB.crowd_control = true
    ∧ ccA.skill_type = some ("Damage")
    ∧ ccBurstPair ccA ccB = 0 := by
  refine ⟨rfl, rfl, ?_⟩; with_unfolding_all decide

/-- C4 (amended): the +1.5 CC-enables-burst bonus is awarded iff cookie1
has active crowd control and cookie2's skill type is Damage, or cookie1
has no active crowd control while cookie2 has it and cookie1's skill type
is Damage; when both parties have crowd control only cookie2's skill type
is consulted. -/
theorem C4_cc_burst_characterisation (c1 c2 : Cookie) :
    (ccBurstPair c1 c2 = 1.5 ↔
      ((flagActive c1.crowd_control ∧ c2.skill_type = some ("Damage"))
        ∨ (¬ flagActive c1.crowd_control ∧ flagActive c2.crowd_control
            ∧ c1.skill_type = some ("Damage"))))
    ∧ (ccBurstPair c1 c2 = 1.5 ∨ ccBurstPair c1 c2 = 0) := by
  unfold ccBurstPair
  split_ifs <;> simp_all <;> norm_num

theorem perm_any {α : Type} (p : α → Bool) {l1 l2 : List α}
    (h : l1.Perm l2) : l1.any p = l2.any p := by
  induction h with
  | nil => rfl
  | cons x h ih => simp [List.any_cons, ih]
  | swap x y l => simp [List.any_cons, Bool.or_left_comm]
  | trans h1 h2 ih1 ih2 => exact ih1.trans ih2

theorem perm_append_swap {α : Type} (a b c : List α) :
    (a ++ (b ++ c)).Perm (b ++ (a ++ c)) := by
  rw [← List.append_assoc a b c, ← List.append_assoc b a c]
  exact List.perm_append_comm.append_right c

theorem rolePairVals_perm {l1 l2 : List Cookie} (h : l1.Perm l2) :
    (rolePairVals l1).Perm (rolePairVals l2) := by
  induction h with
  | nil => simp [rolePairVals]
  | cons x h ih =>
    simp only [rolePairVals]
    exact (h.filterMap _).append ih
  | swap x y l =>
    simp only [rolePairVals, List.filterMap_cons]
    rw [show roleLookup y.role x.role = roleLookup x.role y.role from
      roleLookup_symm _ _]
    cases roleLookup x.role y.role with
    | none => exact perm_append_swap _ _ _
    | some v =>
      simp only [List.cons_append]
      exact (perm_append_swap _ _ _).cons v
  | trans h1 h2 ih1 ih2 => exact ih1.trans ih2

theorem role_synergy_perm {l1 l2 : List Cookie} (h : l1.Perm l2) :
    role_synergy_of l1 = role_synergy_of l2 := by
  have hp := rolePairVals_perm h
  by_cases he : rolePairVals l1 = []
  · have he2 : rolePairVals l2 = [] := by
      have := hp.length_eq
      rw [he] at this
      exact List.length_eq_zero.mp this.symm
    simp [role_synergy_of, he, he2]
  · have he2 : rolePairVals l2 ≠ [] := by
      intro hh
      apply he
      have := hp.length_eq
      rw [hh] at this
      exact List.length_eq_zero.mp this
    simp [role_synergy_of, he, he2, hp.sum_eq, hp.length_eq]

theorem counts_map_perm {l1 l2 : List String} (h : l1.Perm l2) :
    (l1.dedup.map (fun p => l1.count p)).Perm
      (l2.dedup.map (fun p => l2.count p)) := by
  have h1 : (l1.dedup.map (fun p => l1.count p)).Perm
      (l2.dedup.map (fun p => l1.count p)) := h.dedup.map _
  have h2 : l2.dedup.map (fun p => l1.count p)
      = l2.dedup.map (fun p => l2.count p) :=
    List.map_congr_left (fun p _ => h.count_eq p)
  rw [h2] at h1
  exact h1

theorem sortNat_perm_eq {l1 l2 : List ℕ} (h : l1.Perm l2) :
    List.insertionSort (· ≤ ·) l1 = List.insertionSort (· ≤ ·) l2 :=
  List.eq_of_perm_of_sorted
    ((List.perm_insertionSort _ l1).trans
      (h.trans (List.perm_insertionSort _ l2).symm))
    (List.sorted_insertionSort _ l1) (List.sorted_insertionSort _ l2)

theorem position_synergy_perm {l1 l2 : List Cookie} (h : l1.Perm l2) :
    position_synergy_of l1 = position_synergy_of l2 := by
  have hpos : (l1.map (fun c => c.position)).Perm
      (l2.map (fun c => c.position)) := h.map _
  have hlen := hpos.dedup.length_eq
  have hs := sortNat_perm_eq (counts_map_perm hpos)
  simp only [position_synergy_of]
  rw [hlen, hs]

theorem perm_foldr_max {l1 l2 : List ℕ} (h : l1.Perm l2) (b : ℕ) :
    l1.foldr max b = l2.foldr max b := by
  induction h with
  | nil => rfl
  | cons x h ih => simp [ih]
  | swap x y l => simp [Nat.max_left_comm]
  | trans _ _ ih1 ih2 => exact ih1.trans ih2

theorem element_synergy_perm {l1 l2 : List Cookie} (h : l1.Perm l2) :
    element_synergy_of l1 = element_synergy_of l2 := by
  have he : (teamElements l1).Perm (teamElements l2) := h.filterMap _
  have hlen := he.length_eq
  have hm := perm_foldr_max (counts_map_perm he) 0
  simp only [element_synergy_of, teamElements] at hlen hm ⊢
  simp only [hlen, hm]

theorem count_pair_le {l : List String} {a b : String} (hab : a ≠ b) :
    l.count a + l.count b ≤ l.length := by
  induction l with
  | nil => simp
  | cons x xs ih =>
    simp only [List.count_cons, List.length_cons, beq_iff_eq]
    split_ifs with h1 h2 h3
    · exact absurd (h1.symm.trans h2) hab
    · omega
    · omega
    · omega

theorem find_high_tier_perm {R1 R2 : List String} (h : R1.Perm R2)
    (hlen : R1.length = 5) :
    (match R1.dedup.find?
        (fun r => HIGH_TIER_TYPES.contains r && decide (3 ≤ R1.count r)) with
     | some r =>
       if R1.count r = 5 then (15 : ℚ)
       else if R1.count r = 4 then 12
       else if R1.count r = 3 then 8
       else 0
     | none => 0)
    = (match R2.dedup.find?
        (fun r => HIGH_TIER_TYPES.contains r && decide (3 ≤ R2.count r)) with
     | some r =>
       if R2.count r = 5 then (15 : ℚ)
       else if R2.count r = 4 then 12
       else if R2.count r = 3 then 8
       else 0
     | none => 0) := by
  have hc : ∀ r, R1.count r = R2.count r := fun r => h.count_eq r
  have hmemd : ∀ r, r ∈ R1.dedup ↔ r ∈ R2.dedup := by
    intro r
    rw [List.mem_dedup, List.mem_dedup]
    exact h.mem_iff
  cases hf1 : R1.dedup.find?
      (fun r => HIGH_TIER_TYPES.contains r && decide (3 ≤ R1.count r)) with
  | none =>
    cases hf2 : R2.dedup.find?
        (fun r => HIGH_TIER_TYPES.contains r && decide (3 ≤ R2.count r)) with
    | none => rfl
    | some r2 =>
      exfalso
      have hp2 := List.find?_some hf2
      have hm2 := List.mem_of_find?_eq_some hf2
      have hno := List.find?_eq_none.mp hf1 r2 ((hmemd r2).mpr hm2)
      rw [hc r2] at hno
      exact hno hp2
  | some r1 =>
    have hp1 := List.find?_some hf1
    have hm1 := List.mem_of_find?_eq_some hf1
    cases hf2 : R2.dedup.find?
        (fun r => HIGH_TIER_TYPES.contains r && decide (3 ≤ R2.count r)) with
    | none =>
      exfalso
      have hno := List.find?_eq_none.mp hf2 r1 ((hmemd r1).mp hm1)
      rw [← hc r1] at hno
      exact hno hp1
    | some r2 =>
      have hp2 := List.find?_some hf2
      have h31 : 3 ≤ R1.count r1 :=
        of_decide_eq_true (Bool.and_elim_right hp1)
      have h32 : 3 ≤ R1.count r2 := by
        have := of_decide_eq_true (Bool.and_elim_right hp2)
        rw [← hc r2] at this
        exact this
      have heq : r1 = r2 := by
        by_contra hne
        have hcp := count_pair_le (l := R1) hne
        omega
      subst heq
      simp only [hc r1]

theorem type_synergy_perm {l1 l2 : List Cookie} (h : l1.Perm l2)
    (hlen : l1.length = 5) :
    type_synergy_of l1 = type_synergy_of l2 := by
  have hr : (l1.map (fun c => c.rarity)).Perm (l2.map (fun c => c.rarity)) :=
    h.map _
  have hRlen : (l1.map (fun c => c.rarity)).length = 5 := by simp [hlen]
  have := find_high_tier_perm hr hRlen
  simpa only [type_synergy_of] using this

theorem coverage_synergy_perm {l1 l2 : List Cookie} (h : l1.Perm l2) :
    coverage_synergy_of l1 = coverage_synergy_of l2 := by
  have hroles : (l1.map (fun c => c.role)).Perm (l2.map (fun c => c.role)) :=
    h.map _
  simp only [coverage_synergy_of]
  rw [perm_any _ hroles, perm_any _ hroles, perm_any _ hroles,
    hroles.dedup.length_eq]

theorem ability_synergy_perm {l1 l2 : List Cookie} (h : l1.Perm l2) :
    ability_synergy_of l1 = ability_synergy_of l2 := by
  simp only [ability_synergy_of]
  rw [perm_any _ h, perm_any _ h, perm_any _ h, perm_any _ h, perm_any _ h,
    perm_any _ h, h.countP_eq]

theorem calculate_team_synergy_perm {l1 l2 : List Cookie} (h : l1.Perm l2) :
    calculate_team_synergy l1 = calculate_team_synergy l2 := by
  have hlen := h.length_eq
  by_cases h5 : l1.length = 5
  · have h5' : l2.length = 5 := hlen ▸ h5
    simp only [calculate_team_synergy, h5, h5', ne_eq, not_true_eq_false,
      if_false]
    rw [role_synergy_perm h, position_synergy_perm h, element_synergy_perm h,
      type_synergy_perm h h5, coverage_synergy_perm h, ability_synergy_perm h]
  · have h5' : l2.length ≠ 5 := by rw [← hlen]; exact h5
    simp [calculate_team_synergy, h5, h5']

theorem role_diversity_perm {l1 l2 : List Cookie} (h : l1.Perm l2) :
    role_diversity_score_of l1 = role_diversity_score_of l2 := by
  simp only [role_diversity_score_of]
  rw [(List.Perm.map _ h).dedup.length_eq]

theorem position_coverage_perm {l1 l2 : List Cookie} (h : l1.Perm l2) :
    position_coverage_score_of l1 = position_coverage_score_of l2 := by
  simp only [position_coverage_score_of]
  rw [(List.Perm.map _ h).dedup.length_eq]

theorem power_score_perm {l1 l2 : List Cookie} (h : l1.Perm l2) :
    power_score_of l1 = power_score_of l2 := by
  simp only [power_score_of]
  exact (h.map _).sum_eq

theorem bonus_modifiers_perm {l1 l2 : List Cookie} (h : l1.Perm l2) :
    bonus_modifiers_of l1 = bonus_modifiers_of l2 := by
  simp only [bonus_modifiers_of, has_tank_of, has_healer_of]
  simp only [perm_any _ h]

theorem treasure_bonus_perm {l1 l2 : List Cookie} (ts : List Treasure)
    (h : l1.Perm l2) : treasure_bonus_of l1 ts = treasure_bonus_of l2 ts := by
  simp only [treasure_bonus_of]
  rw [perm_any _ h]

theorem composition_score_perm {l1 l2 : List Cookie} (h : l1.Perm l2)
    (ts : List Treasure) (inc : Bool) :
    composition_score_of l1 ts inc = composition_score_of l2 ts inc := by
  simp only [composition_score_of, synergy_bonus_of]
  rw [role_diversity_perm h, position_coverage_perm h, power_score_perm h,
    bonus_modifiers_perm h, treasure_bonus_perm ts h,
    calculate_team_synergy_perm h]

/-- C5: two strict 5-cookie Teams built from a list of distinct cookies
and from any permutation of it (same treasures and flags) have equal
composition scores — the score is order-independent. -/
theorem C5_composition_score_order_independent (cs1 cs2 : List Cookie)
    (ts : List Treasure) (inc : Bool) (_hlen : cs1.length = 5)
    (_hnd : (cs1.map Cookie.name).Nodup) (hperm : cs1.Perm cs2) :
    Team.composition_score ⟨cs1, ts, inc, true⟩
      = Team.composition_score ⟨cs2, ts, inc, true⟩ :=
  composition_score_perm hperm ts inc

/-- C5 witness: the five combo cookies and their reversal. -/
theorem C5_composition_score_order_independent_witness :
    Team.composition_score ⟨comboCookies, [], true, true⟩
      = Team.composition_score ⟨comboCookiesRev, [], true, true⟩ :=
  C5_composition_score_order_independent comboCookies comboCookiesRev [] true
    (by with_unfolding_all decide) (by with_unfolding_all decide)
    (by with_unfolding_all decide)

theorem rolePairVals_bounds {cs : List Cookie} :
    ∀ v ∈ rolePairVals cs, 0 ≤ v ∧ v ≤ 1 := by
  induction cs with
  | nil => simp [rolePairVals]
  | cons c rest ih =>
    intro v hv
    simp only [rolePairVals, List.mem_append] at hv
    rcases hv with hv | hv
    · obtain ⟨d, _, hd⟩ := List.mem_filterMap.mp hv
      exact roleLookup_bounds hd
    · exact ih v hv

theorem role_synergy_bounds (cs : List Cookie) :
    0 ≤ role_synergy_of cs ∧ role_synergy_of cs ≤ 30 := by
  unfold role_synergy_of
  by_cases he : rolePairVals cs = []
  · simp [he]
  · simp only [he, if_false]
    have hlen : 0 < ((rolePairVals cs).length : ℚ) := by
      have h1 : 0 < (rolePairVals cs).length := List.length_pos.mpr he
      exact_mod_cast h1
    have hsum0 : 0 ≤ (rolePairVals cs).sum :=
      List.sum_nonneg (fun x hx => (rolePairVals_bounds x hx).1)
    have hsum1 : (rolePairVals cs).sum ≤ ((rolePairVals cs).length : ℚ) := by
      have h := List.sum_le_card_nsmul (rolePairVals cs) 1
        (fun x hx => (rolePairVals_bounds x hx).2)
      simpa using h
    have hdiv : (rolePairVals cs).sum / ((rolePairVals cs).length : ℚ) ≤ 1 := by
      rw [div_le_one hlen]
      exact hsum1
    have hdiv0 : 0 ≤ (rolePairVals cs).sum / ((rolePairVals cs).length : ℚ) :=
      div_nonneg hsum0 hlen.le
    constructor
    · nlinarith
    · nlinarith

theorem position_synergy_bounds (cs : List Cookie) :
    0 ≤ position_synergy_of cs ∧ position_synergy_of cs ≤ 25 := by
  simp only [position_synergy_of]
  split_ifs <;> norm_num

theorem element_synergy_bounds (cs : List Cookie) :
    0 ≤ element_synergy_of cs ∧ element_synergy_of cs ≤ 25 := by
  simp only [element_synergy_of]
  split_ifs <;> norm_num

theorem type_synergy_bounds (cs : List Cookie) :
    0 ≤ type_synergy_of cs ∧ type_synergy_of cs ≤ 15 := by
  simp only [type_synergy_of]
  split
  · split_ifs <;> norm_num
  · norm_num

theorem coverage_synergy_bounds (cs : List Cookie) :
    0 ≤ coverage_synergy_of cs ∧ coverage_synergy_of cs ≤ 10 := by
  simp only [coverage_synergy_of]
  split_ifs <;> norm_num

theorem ability_synergy_bounds (cs : List Cookie) :
    0 ≤ ability_synergy_of cs ∧ ability_synergy_of cs ≤ 10 := by
  simp only [ability_synergy_of]
  constructor
  · refine le_min ?_ (by norm_num)
    split_ifs <;> positivity
  · exact min_le_right _ _

theorem team_synergy_total_bounds (cs : List Cookie) :
    0 ≤ (calculate_team_synergy cs).total_score
    ∧ (calculate_team_synergy cs).total_score ≤ 115 := by
  unfold calculate_team_synergy
  split_ifs with h
  · simp [zeroBreakdown]
  · have h1 := role_synergy_bounds cs
    have h2 := position_synergy_bounds cs
    have h3 := element_synergy_bounds cs
    have h4 := type_synergy_bounds cs
    have h5 := coverage_synergy_bounds cs
    have h6 := ability_synergy_bounds cs
    dsimp only
    constructor <;> linarith [h1.1, h1.2, h2.1, h2.2, h3.1, h3.2, h4.1, h4.2,
      h5.1, h5.2, h6.1, h6.2]

/-- C1 (amended): with the synergy bonus enabled the composition score
gains `synergy_bonus_of`, which equals the whole-team synergy total scaled
by `20/100` (not `20/110` as the spec says); since the total can reach 115
(position synergy reaches 25 with the balanced-distribution bonus), the
bonus can exceed 20, and is bounded by 23. -/
theorem C1_synergy_bonus_scaling (cs : List Cookie) (ts : List Treasure) :
    composition_score_of cs ts true
      = composition_score_of cs ts false + synergy_bonus_of cs
    ∧ synergy_bonus_of cs
      = (calculate_team_synergy cs).total_score * (20 / 100)
    ∧ 0 ≤ synergy_bonus_of cs ∧ synergy_bonus_of cs ≤ 23 := by
  have hb := team_synergy_total_bounds cs
  refine ⟨?_, ?_, ?_, ?_⟩
  · simp [composition_score_of]
  · unfold synergy_bonus_of
    ring
  · unfold synergy_bonus_of
    linarith [hb.1]
  · unfold synergy_bonus_of
    linarith [hb.2]

/-- C1 counterexample: on the concrete maximally synergistic team the
synergy total is 109.8, so the bonus the code computes is
`109.8 / 100 * 20 = 21.96`: it is neither the 0-110 → 0-20 rescaling
(which would give ≈19.96) nor bounded by 20. -/
theorem C1_counterexample :
    ¬ (synergy_bonus_of comboCookies
        = (calculate_team_synergy comboCookies).total_score * (20 / 110)
      ∧ synergy_bonus_of comboCookies ≤ 20) := by
  with_unfolding_all decide

/-- C8: the counter score is clamped into [0, 100] for every counter
team, enemy team and strategy input: every component the code adds is
non-negative and the final `min(score, 100)` caps it above. -/
theorem C8_counter_score_bounded (t e : Team) (s : CounterStrategy) :
    0 ≤ calculate_counter_score t e s
    ∧ calculate_counter_score t e s ≤ 100 := by
  have hsyn : 0 ≤ t.synergy_score := by
    unfold Team.synergy_score
    split_ifs
    · exact (team_synergy_total_bounds t.cookies).1
    · exact le_refl 0
  simp only [calculate_counter_score]
  constructor
  · refine le_min ?_ (by norm_num)
    repeat' apply add_nonneg
    all_goals positivity
  · exact min_le_right _ _

theorem nodup_iff_dedup_length {α : Type} [DecidableEq α] (l : List α) :
    l.dedup.length = l.length ↔ l.Nodup := by
  constructor
  · intro h
    have hs : l.dedup = l := (List.dedup_sublist l).eq_of_length h
    rw [← hs]
    exact l.nodup_dedup
  · intro h
    rw [List.Nodup.dedup h]

/-- C6: constructing a strict Team with a cookie count other than 5, a
repeated cookie name, more than 3 treasures, or a repeated treasure name
fails validation, so no Team value (and hence no composition score) is
produced. -/
theorem C6_strict_construction_validation (cs : List Cookie)
    (ts : List Treasure) (inc : Bool)
    (h : cs.length ≠ 5 ∨ ¬ (cs.map Cookie.name).Nodup ∨ 3 < ts.length
      ∨ ¬ (ts.map Treasure.name).Nodup) :
    ∃ msg, mkTeam cs ts inc true = .error msg := by
  have hval : ∃ msg, Team.validate ⟨cs, ts, inc, true⟩ = .error msg := by
    simp only [Team.validate]
    split_ifs with h1 h2 h3 h4 h5
    · exact ⟨_, rfl⟩
    · exact ⟨_, rfl⟩
    · exact ⟨_, rfl⟩
    · exact ⟨_, rfl⟩
    · exact ⟨_, rfl⟩
    · exfalso
      simp only [not_and, not_or, not_not] at h1 h2 h3 h4 h5
      rcases h with hl | hdc | hlt | hdt
      · exact hl (h1 trivial)
      · refine hdc ((nodup_iff_dedup_length _).mp ?_)
        rw [h3, List.length_map]
      · exact absurd hlt h4
      · refine hdt ((nodup_iff_dedup_length _).mp ?_)
        rw [h5, List.length_map]
  obtain ⟨m, hm⟩ := hval
  exact ⟨m, by simp [mkTeam, hm]⟩

/-- C6 witness: a 4-cookie strict team fails construction. -/
theorem C6_strict_construction_validation_witness :
    ∃ msg, mkTeam (pool10.take 4) [] true true = .error msg :=
  C6_strict_construction_validation (pool10.take 4) [] true
    (Or.inl (by with_unfolding_all decide))

theorem filter_req_length_eq_countP (pool : List Cookie)
    (reqNames : List String) :
    (pool.filter (fun c => reqNames.contains c.name)).length
    = ((pool.map Cookie.name).filter (fun s => reqNames.contains s)).length := by
  rw [← List.countP_eq_length_filter, ← List.countP_eq_length_filter,
    List.countP_map]
  rfl

theorem filter_req_length_lt {pool : List Cookie} {reqNames : List String}
    (hpool : (pool.map Cookie.name).Nodup) (_hreq : reqNames.Nodup)
    {x : String} (hx : x ∈ reqNames) (hxp : x ∉ pool.map Cookie.name) :
    (pool.filter (fun c => reqNames.contains c.name)).length
      < reqNames.length := by
  rw [filter_req_length_eq_countP]
  have hLnodup : ((pool.map Cookie.name).filter
      (fun s => reqNames.contains s)).Nodup := hpool.filter _
  have hLsub : (pool.map Cookie.name).filter (fun s => reqNames.contains s)
      ⊆ reqNames.erase x := by
    intro y hy
    have hy1 : y ∈ pool.map Cookie.name := List.mem_of_mem_filter hy
    have hy2 : y ∈ reqNames := by
      have := List.of_mem_filter hy
      simpa using this
    have hyx : y ≠ x := fun hh => hxp (hh ▸ hy1)
    exact (List.mem_erase_of_ne hyx).mpr hy2
  have hsp := (hLnodup.subperm hLsub).length_le
  have herase : (reqNames.erase x).length = reqNames.length - 1 :=
    List.length_erase_of_mem hx
  have hpos : 0 < reqNames.length := List.length_pos.mpr (List.ne_nil_of_mem hx)
  omega

theorem filter_req_length_eq {pool : List Cookie} {reqNames : List String}
    (hpool : (pool.map Cookie.name).Nodup) (hreq : reqNames.Nodup)
    (hall : ∀ x ∈ reqNames, x ∈ pool.map Cookie.name) :
    (pool.filter (fun c => reqNames.contains c.name)).length
      = reqNames.length := by
  rw [filter_req_length_eq_countP]
  have hLnodup : ((pool.map Cookie.name).filter
      (fun s => reqNames.contains s)).Nodup := hpool.filter _
  have h1 : (pool.map Cookie.name).filter (fun s => reqNames.contains s)
      ⊆ reqNames := by
    intro y hy
    have := List.of_mem_filter hy
    simpa using this
  have h2 : reqNames ⊆ (pool.map Cookie.name).filter
      (fun s => reqNames.contains s) := by
    intro y hy
    refine List.mem_filter.mpr ⟨hall y hy, ?_⟩
    simpa using hy
  exact ((hLnodup.subperm h1).antisymm (hreq.subperm h2)).length_eq

theorem random_required_error (pool : List Cookie) (n : ℕ)
    (reqNames : List String) (sampler : ℕ → List Cookie → ℕ → List Cookie)
    (hpool : (pool.map Cookie.name).Nodup) (hreq : reqNames.Nodup)
    (h : (∃ x ∈ reqNames, x ∉ pool.map Cookie.name)
      ∨ (5 < reqNames.length ∧ ∀ x ∈ reqNames, x ∈ pool.map Cookie.name)) :
    ∃ m, generate_random_teams pool n (some reqNames) sampler = .error m := by
  have hne : reqNames ≠ [] := by
    rcases h with ⟨x, hx, _⟩ | ⟨h5, _⟩
    · exact List.ne_nil_of_mem hx
    · intro hh
      rw [hh] at h5
      simp at h5
  rcases h with ⟨x, hx, hxp⟩ | ⟨h5, hall⟩
  · have hlt := filter_req_length_lt hpool hreq hx hxp
    have hcpos : reqNames ≠ []
        ∧ (pool.filter (fun c => reqNames.contains c.name)).length
          ≠ reqNames.length := ⟨hne, hlt.ne⟩
    refine ⟨"Required cookies not found", ?_⟩
    simp only [generate_random_teams, Option.getD_some, if_pos hne]
    rw [if_pos hcpos]
  · have heq := filter_req_length_eq hpool hreq hall
    have hcond : ¬ (reqNames ≠ []
        ∧ (pool.filter (fun c => reqNames.contains c.name)).length
          ≠ reqNames.length) := fun hc => hc.2 heq
    have hcast : ((pool.filter (fun c => reqNames.contains c.name)).length : ℤ)
        = (reqNames.length : ℤ) := by exact_mod_cast heq
    have hslots : (5 : ℤ)
        - (pool.filter (fun c => reqNames.contains c.name)).length < 0 := by
      omega
    refine ⟨"Too many required cookies", ?_⟩
    simp only [generate_random_teams, Option.getD_some, if_pos hne,
      if_neg hcond, if_pos hslots]

theorem exhaustive_too_many_error (pool : List Cookie)
    (reqNames : List String) (confirm : Bool)
    (hpool : (pool.map Cookie.name).Nodup) (hreq : reqNames.Nodup)
    (h5 : 5 < reqNames.length)
    (hall : ∀ x ∈ reqNames, x ∈ pool.map Cookie.name) :
    ∃ m, generate_exhaustive_teams pool (some reqNames) confirm
      = .error m := by
  have hne : reqNames ≠ [] := by
    intro hh
    rw [hh] at h5
    simp at h5
  have heq := filter_req_length_eq hpool hreq hall
  have hcast : ((pool.filter (fun c => reqNames.contains c.name)).length : ℤ)
      = (reqNames.length : ℤ) := by exact_mod_cast heq
  have hslots : (5 : ℤ)
      - (pool.filter (fun c => reqNames.contains c.name)).length < 0 := by
    omega
  refine ⟨"ValueError: k must be a non-negative integer", ?_⟩
  simp only [generate_exhaustive_teams, Option.getD_some, if_pos hne]
  rw [if_pos hslots]

/-- C2 (amended): the required-member configuration checks exist only in
the random strategy (and hence in the genetic strategy, whose population
is initialised by it): an unknown required name or more than 5 required
names makes random and genetic fail with a configuration error, and more
than 5 required names also makes exhaustive fail (via `math.comb` on a
negative count); but greedy and exhaustive silently drop unknown required
names and still return a team list. -/
theorem C2_required_member_checks :
    (∀ (pool : List Cookie) (n : ℕ) (reqNames : List String)
      (sampler : ℕ → List Cookie → ℕ → List Cookie),
      (pool.map Cookie.name).Nodup → reqNames.Nodup →
      ((∃ x ∈ reqNames, x ∉ pool.map Cookie.name)
        ∨ (5 < reqNames.length ∧ ∀ x ∈ reqNames, x ∈ pool.map Cookie.name)) →
      ∃ m, generate_random_teams pool n (some reqNames) sampler = .error m)
    ∧ (∀ (pool : List Cookie) (generations ps : ℕ) (reqNames : List String)
      (initSampler : ℕ → List Cookie → ℕ → List Cookie) (rngs : ℕ → GenRand)
      (fuel : ℕ),
      (pool.map Cookie.name).Nodup → reqNames.Nodup →
      ((∃ x ∈ reqNames, x ∉ pool.map Cookie.name)
        ∨ (5 < reqNames.length ∧ ∀ x ∈ reqNames, x ∈ pool.map Cookie.name)) →
      ∃ m, generate_genetic_teams pool generations ps (some reqNames)
        initSampler rngs fuel = .error m)
    ∧ (∀ (pool : List Cookie) (reqNames : List String) (confirm : Bool),
      (pool.map Cookie.name).Nodup → reqNames.Nodup → 5 < reqNames.length →
      (∀ x ∈ reqNames, x ∈ pool.map Cookie.name) →
      ∃ m, generate_exhaustive_teams pool (some reqNames) confirm = .error m)
    ∧ (generate_exhaustive_teams pool6 (some ["Phantom Cookie"]) false).map
        List.length = Except.ok 6 := by
  refine ⟨random_required_error, ?_, exhaustive_too_many_error, ?_⟩
  · intro pool generations ps reqNames initSampler rngs fuel hpool hreq h
    obtain ⟨m, hm⟩ := random_required_error pool ps reqNames initSampler
      hpool hreq h
    exact ⟨m, by simp [generate_genetic_teams, hm]⟩
  · with_unfolding_all rfl

/-- C2 counterexample: the greedy strategy invoked with a required name
absent from the pool raises no error and returns a (1-element) team list,
so the claim fails for the greedy strategy. -/
theorem C2_counterexample :
    (generate_greedy_teams pool10 1 (some ["Phantom Cookie"]) chooseHead
      takeSampler).map List.length = Except.ok 1 := by
  with_unfolding_all rfl

/-- C2 witness: the error paths exercised at concrete inputs. -/
theorem C2_required_member_checks_witness :
    (∃ m, generate_random_teams pool10 3 (some ["Phantom Cookie"])
      takeSampler = .error m)
    ∧ (∃ m, generate_genetic_teams pool10 2 3 (some ["Phantom Cookie"])
      takeSampler (fun _ => rng0) 5 = .error m)
    ∧ (∃ m, generate_exhaustive_teams pool10
      (some ["P01", "P02", "P03", "P04", "P05", "P06"]) false = .error m) :=
  ⟨C2_required_member_checks.1 pool10 3 ["Phantom Cookie"] takeSampler
      (by with_unfolding_all decide) (by with_unfolding_all decide)
      (Or.inl (by with_unfolding_all decide)),
   C2_required_member_checks.2.1 pool10 2 3 ["Phantom Cookie"] takeSampler
      (fun _ => rng0) 5
      (by with_unfolding_all decide) (by with_unfolding_all decide)
      (Or.inl (by with_unfolding_all decide)),
   C2_required_member_checks.2.2.1 pool10
      ["P01", "P02", "P03", "P04", "P05", "P06"] false
      (by with_unfolding_all decide) (by with_unfolding_all decide)
      (by with_unfolding_all decide) (by with_unfolding_all decide)⟩

theorem breedLoop_spec (allCookies : List Cookie) (reqNames : List String)
    (rng : GenRand) (ps : ℕ) (elites : List Team) :
    ∀ (fuel attempt : ℕ) (acc res : List Team), acc.length ≤ ps →
      breedLoop allCookies reqNames rng ps elites fuel attempt acc
        = .ok (some res) →
      res.length = ps ∧ ∀ x ∈ acc, x ∈ res := by
  intro fuel
  induction fuel with
  | zero =>
    intro attempt acc res hacc h
    simp only [breedLoop] at h
    split_ifs at h with hc
    · simp only [pure, Except.pure, Except.ok.injEq, Option.some.injEq] at h
      subst h
      exact ⟨le_antisymm hacc hc, fun x hx => hx⟩
    · simp [pure, Except.pure] at h
  | succ fuel ih =>
    intro attempt acc res hacc h
    simp only [breedLoop] at h
    by_cases hc : ps ≤ acc.length
    · rw [if_pos hc] at h
      simp only [pure, Except.pure, Except.ok.injEq, Option.some.injEq] at h
      subst h
      exact ⟨le_antisymm hacc hc, fun x hx => hx⟩
    · rw [if_neg hc] at h
      by_cases hel : elites.length < 2
      · rw [if_pos hel] at h
        simp at h
      · rw [if_neg hel] at h
        split at h
        · simp at h
        · split at h
          · rename_i t _
            have hacc2 : (acc ++ [t]).length ≤ ps := by
              simp only [List.length_append, List.length_cons,
                List.length_nil]
              omega
            obtain ⟨hl, hsub⟩ := ih (attempt + 1) (acc ++ [t]) res hacc2 h
            exact ⟨hl, fun x hx => hsub x (List.mem_append_left _ hx)⟩
          · exact ih (attempt + 1) acc res hacc h

/-- C7: whenever one generation step of the genetic search finishes (the
breeding loop refills the population within its fuel), the new population
has exactly the configured size, and every team of the old population is
dominated by some team of the new one (the sorted elites are carried
over), so the best composition score never decreases. -/
theorem C7_genetic_step_invariants (allCookies : List Cookie)
    (reqNames : List String) (rng : GenRand) (ps fuel : ℕ)
    (population newPop : List Team) (hlen : population.length = ps)
    (hps : 1 ≤ ps)
    (hstep : genetic_step allCookies reqNames rng ps fuel population
      = .ok (some newPop)) :
    newPop.length = ps
    ∧ ∀ t ∈ population, ∃ u ∈ newPop,
        t.composition_score ≤ u.composition_score := by
  simp only [genetic_step] at hstep
  have hperm : (List.insertionSort scoreGE population).Perm population :=
    List.perm_insertionSort _ _
  have hslen : (List.insertionSort scoreGE population).length = ps := by
    rw [hperm.length_eq, hlen]
  have hnn : List.insertionSort scoreGE population ≠ [] := by
    intro hh
    rw [hh] at hslen
    simp at hslen
    omega
  obtain ⟨hd, tl, hcons⟩ := List.exists_cons_of_ne_nil hnn
  have helen : ((List.insertionSort scoreGE population).take
      (max 2 (ps / 5))).length ≤ ps := by
    rw [List.length_take]
    omega
  obtain ⟨hl, hsub⟩ := breedLoop_spec allCookies reqNames rng ps _ fuel 0 _
    newPop helen hstep
  refine ⟨hl, ?_⟩
  intro t ht
  have hsorted := List.sorted_insertionSort scoreGE population
  have hmax : t.composition_score ≤ hd.composition_score := by
    have ht' : t ∈ List.insertionSort scoreGE population :=
      hperm.symm.subset ht
    rw [hcons] at ht' hsorted
    rcases List.mem_cons.mp ht' with rfl | htl
    · exact le_refl _
    · exact (List.sorted_cons.mp hsorted).1 t htl
  have hhd : hd ∈ (List.insertionSort scoreGE population).take
      (max 2 (ps / 5)) := by
    have h2 : 1 ≤ max 2 (ps / 5) := by omega
    obtain ⟨k, hk⟩ : ∃ k, max 2 (ps / 5) = k + 1 :=
      ⟨max 2 (ps / 5) - 1, by omega⟩
    rw [hcons, hk, List.take_succ_cons]
    exact List.mem_cons_self _ _
  exact ⟨hd, hsub hd hhd, hmax⟩

/-- C7 witness: a size-1 population step completes immediately and keeps
its size and best score. -/
theorem C7_genetic_step_invariants_witness :
    ([soloTeam] : List Team).length = 1
    ∧ ∀ t ∈ ([soloTeam] : List Team), ∃ u ∈ ([soloTeam] : List Team),
        t.composition_score ≤ u.composition_score :=
  C7_genetic_step_invariants [] [] rng0 1 0 [soloTeam] [soloTeam] rfl
    (le_refl 1) (by with_unfolding_all rfl)
